import Mathlib

/-!
Shallow embedding of the submission-orchestrator logic of
`src/frontend/src/App.tsx` (the-fineprint-project frontend), together with
theorems settling the specification claims about it.

Conventions of the embedding:
* every React `useState` cell of the `App` component becomes a field of
  `AppState`; an event handler becomes a pure function from the pre-state
  (plus its event payload and, for `handleAnalyze`, the remote outcome
  chosen by the environment) to the post-state;
* a `fetch` call performed during a step is recorded in the `requests`
  output of that step, and a call to `alert` in the `alerted` flag;
* JavaScript truthiness of an optional string field (`a || b`, where both
  `undefined` and the empty string are falsy) is modelled by `orField`;
* `jsTrim` models `String.prototype.trim` (restricted to the ASCII
  whitespace characters that can occur here) and `toLowerCase` models
  `String.prototype.toLowerCase` characterwise via `Char.toLower`;
* the `<audio>` element reached through `audioRef` is modelled by an
  optional `AudioElement` record (its `paused` flag and `currentTime`);
  `audioRef.current === null` corresponds to `none`.
-/

/-- A browser `File` as the component sees it: name, byte size and the
declared MIME type. -/
structure JsFile where
  name : String
  size : Nat
  type : String
deriving DecidableEq, Repr

/-- The mutable state of the `<audio>` element referenced by `audioRef`. -/
structure AudioElement where
  paused : Bool
  currentTime : Nat
deriving DecidableEq, Repr

/-- The `Clause` interface of `App.tsx`. The source annotates `riskLevel`
with the TypeScript union type of the three literals but then casts an
arbitrary lowercased string into it, so the field is an unconstrained
string here, exactly as it is at runtime. -/
structure Clause where
  id : String
  text : String
  riskLevel : String
  explanation : String
deriving DecidableEq, Repr

/-- One record of the JSON payload `data.clauses`. Each field is `none`
when the key is absent (`undefined`). -/
structure RawClause where
  id : Option String
  text : Option String
  clause_text : Option String
  risk_level : Option String
  severity : Option String
  explanation : Option String
  reason : Option String
deriving DecidableEq, Repr

/-- All `useState` cells of the `App` component, in source order. -/
structure AppState where
  selectedFile : Option JsFile
  pastedText : String
  isAnalyzing : Bool
  results : List Clause
  uploadProgress : Nat
  activeTab : String
  isDragging : Bool
  podcastMode : Bool
  audioUrl : Option String
  isPlaying : Bool
  audioRef : Option AudioElement
deriving DecidableEq, Repr

/-- The initial values passed to `useState` in the source. -/
def initialState : AppState :=
  { selectedFile := none
    pastedText := ""
    isAnalyzing := false
    results := []
    uploadProgress := 0
    activeTab := "upload"
    isDragging := false
    podcastMode := false
    audioUrl := none
    isPlaying := false
    audioRef := none }

/-- The request body of one `fetch` call: either a multipart form with the
file, or a JSON body `{ text: ... }`. -/
inductive Body where
  | formFile (f : JsFile)
  | jsonText (t : String)
deriving DecidableEq, Repr

/-- One dispatched `fetch` call: target URL and body. -/
structure Request where
  endpoint : String
  body : Body
deriving DecidableEq, Repr

/-- `const API_BASE_URL = http://localhost:8000` of the source. -/
def API_BASE_URL : String := "http://localhost:8000"

/-- URL of the standard-analysis endpoint (used for file and text alike). -/
def getClausesUrl : String := API_BASE_URL ++ "/get_clauses"

/-- URL of the file-narration endpoint (podcast mode, file input). -/
def conversationClausesFileUrl : String := API_BASE_URL ++ "/conversation_clauses_file"

/-- URL of the text-narration endpoint (podcast mode, pasted text). -/
def conversationClausesUrl : String := API_BASE_URL ++ "/conversation_clauses"

/-- Outcome of a narration request as the component observes it:
a successful `blob()` wrapped by `URL.createObjectURL` into `url`, or any
failure (transport error or `!response.ok`, both reaching `catch`). -/
inductive NarrationOutcome where
  | ok (url : String)
  | err
deriving DecidableEq, Repr

/-- Outcome of a standard-analysis request as the component observes it:
a successful `response.json()` whose `clauses` field is the given list
(`none` when the key is absent), or any failure (transport error,
`!response.ok`, or `json()` throwing on a malformed body). -/
inductive AnalysisOutcome where
  | ok (payload : Option (List RawClause))
  | err
deriving DecidableEq, Repr

/-- What one invocation of `handleAnalyze` produces: the post-state, the
list of `fetch` calls made, and whether `alert` fired. -/
structure StepResult where
  state : AppState
  requests : List Request
  alerted : Bool
deriving DecidableEq, Repr

/-- ASCII whitespace; the characters `String.prototype.trim` strips that
are representable here. -/
def isJsWhitespace (c : Char) : Bool :=
  c = ' ' || c = '\t' || c = '\n' || c = '\r'

/-- Models `s.trim()`: strip whitespace from both ends. -/
def jsTrim (s : String) : String :=
  String.mk (((s.data.dropWhile isJsWhitespace).reverse.dropWhile isJsWhitespace).reverse)

/-- Models `s.toLowerCase()` characterwise (the payloads here are ASCII). -/
def toLowerCase (s : String) : String :=
  String.mk (s.data.map Char.toLower)

/-- Models `a || d` on an optional string under JS truthiness: an absent
(`undefined`) or empty-string value falls through to the fallback `d`. -/
def orField : Option String → String → String
  | none, d => d
  | some s, d => if s = "" then d else s

/-- The per-record arrow of `data.clauses?.map((clause, index) => ...)`:
`id := clause.id || String(index + 1)`,
`text := clause.text || clause.clause_text || ""`,
`riskLevel := (clause.risk_level || clause.severity || "medium").toLowerCase()`,
`explanation := clause.explanation || clause.reason || ""`. -/
def transformClause (clause : RawClause) (index : Nat) : Clause :=
  { id := orField clause.id (toString (index + 1))
    text := orField clause.text (orField clause.clause_text "")
    riskLevel := toLowerCase (orField clause.risk_level (orField clause.severity "medium"))
    explanation := orField clause.explanation (orField clause.reason "") }

/-- Index-passing form of mapping `transformClause` over the records. -/
def transformClausesAux : Nat → List RawClause → List Clause
  | _, [] => []
  | i, c :: cs => transformClause c i :: transformClausesAux (i + 1) cs

/-- `data.clauses.map((clause, index) => ...)` with 0-based `index`. -/
def transformClauses (cs : List RawClause) : List Clause :=
  transformClausesAux 0 cs

/-- `data.clauses?.map(...) || []`: an absent `clauses` key yields `[]`. -/
def transformPayload : Option (List RawClause) → List Clause
  | some cs => transformClauses cs
  | none => []

/-- `simulateUpload`: synchronously resets the progress bar to 0 and starts
the timer animation (the asynchronous ticks are `uploadTick`). -/
def simulateUpload (s : AppState) : AppState :=
  { s with uploadProgress := 0 }

/-- One tick of the `setInterval` callback inside `simulateUpload`. -/
def uploadTick (prev : Nat) : Nat :=
  if prev ≥ 100 then 100 else prev + 10

/-- `handleFileChange`: `e.target.files?.[0]` is the argument (`none` when
the change event carries no file); any present file is selected with no
check of its type or size, and the simulated upload starts. -/
def handleFileChange (s : AppState) (chosen : Option JsFile) : AppState :=
  match chosen with
  | some f => simulateUpload { s with selectedFile := some f }
  | none => s

/-- The MIME-type test of `handleDrop`: PDF, the DOCX word-processor
format, or plain text. -/
def acceptedType (t : String) : Bool :=
  t = "application/pdf" ||
  t = "application/vnd.openxmlformats-officedocument.wordprocessingml.document" ||
  t = "text/plain"

/-- `handleDrop`: `e.dataTransfer.files[0]` is the argument. Dragging ends
unconditionally; the file is selected (and the simulated upload started)
only when its declared type passes `acceptedType`; no size check. -/
def handleDrop (s : AppState) (dropped : Option JsFile) : AppState :=
  let s1 := { s with isDragging := false }
  match dropped with
  | some f =>
    if acceptedType f.type then
      simulateUpload { s1 with selectedFile := some f }
    else s1
  | none => s1

/-- `handleAnalyze`. The guard `if (!selectedFile && !pastedText.trim())
return;` is the first branch. Otherwise `setIsAnalyzing(true)` runs, one
`fetch` is dispatched according to mode and input (the file is preferred
when both are present), and the outcome is handled inside `try`; every
failure path lands in `catch` (which alerts) and skips the state updates
of the success path; `finally` runs `setIsAnalyzing(false)`, so the final
state always has `isAnalyzing := false` on these paths. -/
def handleAnalyze (s : AppState) (nar : NarrationOutcome) (ana : AnalysisOutcome) : StepResult :=
  if s.selectedFile = none ∧ jsTrim s.pastedText = "" then
    { state := s, requests := [], alerted := false }
  else if s.podcastMode then
    let req : Request :=
      match s.selectedFile with
      | some f => { endpoint := conversationClausesFileUrl, body := Body.formFile f }
      | none => { endpoint := conversationClausesUrl, body := Body.jsonText s.pastedText }
    match nar with
    | NarrationOutcome.ok url =>
      { state := { s with isAnalyzing := false, audioUrl := some url, results := [] }
        requests := [req]
        alerted := false }
    | NarrationOutcome.err =>
      { state := { s with isAnalyzing := false }
        requests := [req]
        alerted := true }
  else
    let req : Request :=
      match s.selectedFile with
      | some f => { endpoint := getClausesUrl, body := Body.formFile f }
      | none => { endpoint := getClausesUrl, body := Body.jsonText s.pastedText }
    match ana with
    | AnalysisOutcome.ok payload =>
      { state := { s with isAnalyzing := false, results := transformPayload payload, audioUrl := none }
        requests := [req]
        alerted := false }
    | AnalysisOutcome.err =>
      { state := { s with isAnalyzing := false }
        requests := [req]
        alerted := true }

/-- `handleClear`: resets file, text, results, progress, audio URL and the
playing flag, and pauses/rewinds the `<audio>` element when it is mounted.
It does not touch `podcastMode`, `activeTab`, `isDragging` or
`isAnalyzing`. -/
def handleClear (s : AppState) : AppState :=
  { s with selectedFile := none
           pastedText := ""
           results := []
           uploadProgress := 0
           audioUrl := none
           isPlaying := false
           audioRef := s.audioRef.map (fun a => { a with paused := true, currentTime := 0 }) }

/-- `togglePlayPause`: a no-op when the `<audio>` element is unmounted. -/
def togglePlayPause (s : AppState) : AppState :=
  match s.audioRef with
  | some a =>
    if s.isPlaying then
      { s with audioRef := some { a with paused := true }, isPlaying := !s.isPlaying }
    else
      { s with audioRef := some { a with paused := false }, isPlaying := !s.isPlaying }
  | none => s

/-- Concrete file used by witnesses: an accepted PDF. -/
def wPdfFile : JsFile := { name := "a.pdf", size := 5, type := "application/pdf" }

/-- Concrete state with both a file and non-empty text present, in
narrated mode. -/
def wStateBoth : AppState :=
  { initialState with selectedFile := some wPdfFile
                      pastedText := "also text"
                      podcastMode := true }

/-- C1: for every Mode/InputSource combination with an input present, a
submission dispatches exactly one request, to the endpoint of the §4.1
table: standard mode targets the analyze endpoint (`/get_clauses`) for
file and text alike; narrated mode targets the file-narration endpoint
(`/conversation_clauses_file`) for a file and the text-narration endpoint
(`/conversation_clauses`) for text; and when both a file and non-empty
text are present the file variant is chosen (first conjunct, which applies
whatever `pastedText` holds). -/
theorem C1_dispatch_table (s : AppState) (nar : NarrationOutcome) (ana : AnalysisOutcome)
    (hpresent : s.selectedFile ≠ none ∨ jsTrim s.pastedText ≠ "") :
    (∀ f, s.selectedFile = some f →
      (handleAnalyze s nar ana).requests =
        [{ endpoint := if s.podcastMode then conversationClausesFileUrl else getClausesUrl,
           body := Body.formFile f }]) ∧
    (s.selectedFile = none →
      (handleAnalyze s nar ana).requests =
        [{ endpoint := if s.podcastMode then conversationClausesUrl else getClausesUrl,
           body := Body.jsonText s.pastedText }]) := by
  constructor
  · intro f hf
    have hguard : ¬ (s.selectedFile = none ∧ jsTrim s.pastedText = "") := by
      rw [hf]; rintro ⟨h, -⟩; exact Option.noConfusion h
    cases hp : s.podcastMode <;> cases nar <;> cases ana <;>
      simp [handleAnalyze, hguard, hf, hp]
  · intro hf
    have htext : jsTrim s.pastedText ≠ "" := by
      rcases hpresent with h | h
      · exact absurd hf h
      · exact h
    cases hp : s.podcastMode <;> cases nar <;> cases ana <;>
      simp [handleAnalyze, htext, hf, hp]

/-- Witness for C1: with both a PDF and non-empty text present in narrated
mode, the one dispatched request is the file-narration one carrying the
file. -/
theorem C1_dispatch_table_witness :
    (handleAnalyze wStateBoth NarrationOutcome.err (AnalysisOutcome.ok none)).requests =
      [{ endpoint := conversationClausesFileUrl, body := Body.formFile wPdfFile }] := by
  have h := (C1_dispatch_table wStateBoth NarrationOutcome.err (AnalysisOutcome.ok none)
    (Or.inl (by decide))).1 wPdfFile rfl
  simpa [wStateBoth] using h

/-- C3: with neither a file nor non-empty text (whitespace-only text trims
to empty), submit performs no network call, raises no error signal, and
returns the client state exactly unchanged. -/
theorem C3_empty_input_noop (s : AppState) (nar : NarrationOutcome) (ana : AnalysisOutcome)
    (hfile : s.selectedFile = none) (htext : jsTrim s.pastedText = "") :
    handleAnalyze s nar ana = { state := s, requests := [], alerted := false } := by
  simp [handleAnalyze, hfile, htext]

/-- Witness for C3: whitespace-only pasted text and no file; the step is a
silent no-op. -/
theorem C3_empty_input_noop_witness :
    handleAnalyze { initialState with pastedText := " \t\n " }
        NarrationOutcome.err AnalysisOutcome.err =
      { state := { initialState with pastedText := " \t\n " }
        requests := []
        alerted := false } :=
  C3_empty_input_noop _ _ _ rfl (by decide)

/-- A concrete pre-existing analysis result. -/
def wOldClause : Clause :=
  { id := "1", text := "old clause", riskLevel := "low", explanation := "old" }

/-- Concrete state for the C2 counterexample: narrated mode, non-empty
text, and a pre-existing AnalysisResult. -/
def wStateC2 : AppState :=
  { initialState with pastedText := "terms"
                      podcastMode := true
                      results := [wOldClause] }

/-- Counterexample to C2: a narrated-mode submission whose remote call
fails leaves the pre-existing AnalysisResult in place — the clearing of
the alternate result is not performed independent of success/failure. -/
theorem C2_counterexample :
    wStateC2.podcastMode = true ∧
    wStateC2.results = [wOldClause] ∧
    (handleAnalyze wStateC2 NarrationOutcome.err (AnalysisOutcome.ok none)).state.results
      = [wOldClause] :=
  ⟨rfl, rfl, rfl⟩

/-- C2 as amended: the alternate result is cleared exactly on success. A
successful narrated-mode submission clears AnalysisResult (together with
setting the AudioArtifact), and a successful standard-mode submission
clears AudioArtifact; a failed submission of either mode leaves both
results untouched — nothing is cleared up front. -/
theorem C2_amended_clear_on_success (s : AppState) (nar : NarrationOutcome)
    (ana : AnalysisOutcome)
    (hpresent : s.selectedFile ≠ none ∨ jsTrim s.pastedText ≠ "") :
    (s.podcastMode = true →
      ((∀ url, nar = NarrationOutcome.ok url →
          (handleAnalyze s nar ana).state.results = [] ∧
          (handleAnalyze s nar ana).state.audioUrl = some url) ∧
       (nar = NarrationOutcome.err →
          (handleAnalyze s nar ana).state.results = s.results ∧
          (handleAnalyze s nar ana).state.audioUrl = s.audioUrl))) ∧
    (s.podcastMode = false →
      ((∀ p, ana = AnalysisOutcome.ok p →
          (handleAnalyze s nar ana).state.audioUrl = none ∧
          (handleAnalyze s nar ana).state.results = transformPayload p) ∧
       (ana = AnalysisOutcome.err →
          (handleAnalyze s nar ana).state.audioUrl = s.audioUrl ∧
          (handleAnalyze s nar ana).state.results = s.results))) := by
  have hguard : ¬ (s.selectedFile = none ∧ jsTrim s.pastedText = "") := by
    rintro ⟨h1, h2⟩
    rcases hpresent with h | h
    · exact h h1
    · exact h h2
  cases hsel : s.selectedFile <;> cases hp : s.podcastMode <;> cases nar <;> cases ana <;>
    simp_all [handleAnalyze]

/-- Witness for the amended C2: a successful narrated submission at
`wStateBoth` clears the analysis results. -/
theorem C2_amended_clear_on_success_witness :
    (handleAnalyze { wStateBoth with results := [wOldClause] }
        (NarrationOutcome.ok "blob:2") AnalysisOutcome.err).state.results = [] :=
  ((((C2_amended_clear_on_success { wStateBoth with results := [wOldClause] }
      (NarrationOutcome.ok "blob:2") AnalysisOutcome.err
      (Or.inl (by decide))).1 rfl).1) "blob:2" rfl).1

/-- The failure condition of one `handleAnalyze` invocation: the branch
taken reaches `catch` (non-2xx status, transport failure, or a malformed
body, which the outcome types collapse into `err`). -/
def failedOutcome (s : AppState) (nar : NarrationOutcome) (ana : AnalysisOutcome) : Prop :=
  (s.podcastMode = true ∧ nar = NarrationOutcome.err) ∨
  (s.podcastMode = false ∧ ana = AnalysisOutcome.err)

/-- C4: every failing submission ends with `isAnalyzing` back at false
(idle), leaves both AnalysisResult and AudioArtifact exactly as they were
(the failed request sets neither), and surfaces the failure as the single
generic alert. -/
theorem C4_failure_idle (s : AppState) (nar : NarrationOutcome) (ana : AnalysisOutcome)
    (hpresent : s.selectedFile ≠ none ∨ jsTrim s.pastedText ≠ "")
    (hfail : failedOutcome s nar ana) :
    (handleAnalyze s nar ana).state.isAnalyzing = false ∧
    (handleAnalyze s nar ana).state.results = s.results ∧
    (handleAnalyze s nar ana).state.audioUrl = s.audioUrl ∧
    (handleAnalyze s nar ana).alerted = true := by
  have hguard : ¬ (s.selectedFile = none ∧ jsTrim s.pastedText = "") := by
    rintro ⟨h1, h2⟩
    rcases hpresent with h | h
    · exact h h1
    · exact h h2
  rcases hfail with ⟨hp, hn⟩ | ⟨hp, hn⟩ <;>
    cases hsel : s.selectedFile <;>
      simp_all [handleAnalyze]

/-- Witness for C4: a failing narrated-mode request at a concrete populated
state leaves results and audio untouched, alerts, and returns to idle. -/
theorem C4_failure_idle_witness :
    (handleAnalyze wStateC2 NarrationOutcome.err AnalysisOutcome.err).state.isAnalyzing = false ∧
    (handleAnalyze wStateC2 NarrationOutcome.err AnalysisOutcome.err).state.results = wStateC2.results ∧
    (handleAnalyze wStateC2 NarrationOutcome.err AnalysisOutcome.err).state.audioUrl = wStateC2.audioUrl ∧
    (handleAnalyze wStateC2 NarrationOutcome.err AnalysisOutcome.err).alerted = true :=
  C4_failure_idle wStateC2 NarrationOutcome.err AnalysisOutcome.err
    (Or.inr (by decide)) (Or.inl ⟨rfl, rfl⟩)

/-- Builds a record that uses the primary field names
`text`/`risk_level`/`explanation` for the three values, with an optional
shared `id`. -/
def primaryRecord (q : Option String × String × String × String) : RawClause :=
  { id := q.1
    text := some q.2.1
    clause_text := none
    risk_level := some q.2.2.1
    severity := none
    explanation := some q.2.2.2
    reason := none }

/-- Builds a record that carries the same values under the alternate field
names `clause_text`/`severity`/`reason`. -/
def aliasRecord (q : Option String × String × String × String) : RawClause :=
  { id := q.1
    text := none
    clause_text := some q.2.1
    risk_level := none
    severity := some q.2.2.1
    explanation := none
    reason := some q.2.2.2 }

/-- At a single record, the two field spellings normalize identically. -/
theorem transformClause_alias (q : Option String × String × String × String) (i : Nat) :
    transformClause (aliasRecord q) i = transformClause (primaryRecord q) i := rfl

/-- C5: a successful standard-mode payload whose records use
`clause_text`/`severity`/`reason` produces a Clause sequence identical to
the one produced by the same values under `text`/`risk_level`/`explanation`. -/
theorem C5_alias_fields_same_clauses (l : List (Option String × String × String × String)) :
    transformClauses (l.map aliasRecord) = transformClauses (l.map primaryRecord) := by
  unfold transformClauses
  suffices h : ∀ n, transformClausesAux n (l.map aliasRecord) =
      transformClausesAux n (l.map primaryRecord) from h 0
  induction l with
  | nil => intro n; rfl
  | cons q t ih =>
    intro n
    simp only [List.map_cons, transformClausesAux]
    rw [transformClause_alias, ih (n + 1)]

/-- C6: the produced `riskLevel` is the lowercased server category taken
from `risk_level`, else `severity`; the category is never validated
against the closed set, so any (non-empty) string — also one outside
high/medium/low — passes through with only the lowercase transform. -/
theorem C6_riskLevel_lowercase_passthrough (c : RawClause) (i : Nat) (cat : String)
    (hne : cat ≠ "") :
    (c.risk_level = some cat →
      (transformClause c i).riskLevel = toLowerCase cat) ∧
    (c.risk_level = none → c.severity = some cat →
      (transformClause c i).riskLevel = toLowerCase cat) := by
  constructor
  · intro h
    simp [transformClause, orField, h, hne]
  · intro h1 h2
    simp [transformClause, orField, h1, h2, hne]

/-- Witness for C6: a server category `"HIGH"` yields riskLevel `"high"`,
and the unrecognized category `"CRITICAL"` (via `severity`) passes through
as `"critical"`. -/
theorem C6_riskLevel_lowercase_passthrough_witness :
    ((transformClause { id := none, text := some "t", clause_text := none,
                        risk_level := some "HIGH", severity := none,
                        explanation := some "e", reason := none } 0).riskLevel
        = toLowerCase "HIGH" ∧ toLowerCase "HIGH" = "high") ∧
    ((transformClause { id := none, text := some "t", clause_text := none,
                        risk_level := none, severity := some "CRITICAL",
                        explanation := some "e", reason := none } 0).riskLevel
        = toLowerCase "CRITICAL" ∧ toLowerCase "CRITICAL" = "critical") :=
  ⟨⟨(C6_riskLevel_lowercase_passthrough
      { id := none, text := some "t", clause_text := none,
        risk_level := some "HIGH", severity := none,
        explanation := some "e", reason := none } 0 "HIGH" (by decide)).1 rfl,
    by decide⟩,
   ⟨(C6_riskLevel_lowercase_passthrough
      { id := none, text := some "t", clause_text := none,
        risk_level := none, severity := some "CRITICAL",
        explanation := some "e", reason := none } 0 "CRITICAL" (by decide)).2 rfl rfl,
    by decide⟩⟩

/-- C7: missing fields are substituted, never rejected: an absent `id`
gets the 1-based positional fallback `String(index + 1)`, absent
`text`/`clause_text` degrade to `""`, absent `risk_level`/`severity`
default to `"medium"`, absent `explanation`/`reason` degrade to `""`, and
a payload without a `clauses` array yields the empty result; no case is
an error (`transformClause`/`transformPayload` are total functions). -/
theorem C7_missing_field_defaults (c : RawClause) (i : Nat) :
    (c.id = none → (transformClause c i).id = toString (i + 1)) ∧
    (c.text = none → c.clause_text = none → (transformClause c i).text = "") ∧
    (c.risk_level = none → c.severity = none →
      (transformClause c i).riskLevel = "medium") ∧
    (c.explanation = none → c.reason = none →
      (transformClause c i).explanation = "") ∧
    transformPayload none = [] := by
  refine ⟨?_, ?_, ?_, ?_, rfl⟩
  · intro h
    simp [transformClause, orField, h]
  · intro h1 h2
    simp [transformClause, orField, h1, h2]
  · intro h1 h2
    simp only [transformClause, orField, h1, h2]
    decide
  · intro h1 h2
    simp [transformClause, orField, h1, h2]

/-- An entirely empty record: every key absent. -/
def emptyRecord : RawClause :=
  { id := none, text := none, clause_text := none, risk_level := none,
    severity := none, explanation := none, reason := none }

/-- Witness for C7 at the all-absent record in position 4 (0-based), so the
positional id is `"5"`. -/
theorem C7_missing_field_defaults_witness :
    (transformClause emptyRecord 4).id = "5" ∧
    (transformClause emptyRecord 4).text = "" ∧
    (transformClause emptyRecord 4).riskLevel = "medium" ∧
    (transformClause emptyRecord 4).explanation = "" := by
  obtain ⟨h1, h2, h3, h4, -⟩ := C7_missing_field_defaults emptyRecord 4
  exact ⟨(h1 rfl).trans (by decide), h2 rfl rfl, h3 rfl rfl, h4 rfl rfl⟩

/-- Concrete state for the C8 counterexample: a populated state whose
submission is still in flight when clear is invoked (the Clear button is
not disabled while `isAnalyzing` is true). -/
def wStateC8 : AppState :=
  { initialState with selectedFile := some wPdfFile
                      pastedText := "body"
                      isAnalyzing := true
                      results := [wOldClause]
                      uploadProgress := 50
                      podcastMode := true
                      audioUrl := some "blob:old"
                      isPlaying := true
                      audioRef := some { paused := false, currentTime := 7 } }

/-- Counterexample to C8: `handleClear` does not reset SubmissionStatus —
invoked while a submission is in flight, the in-flight flag stays true
afterward. -/
theorem C8_counterexample :
    wStateC8.isAnalyzing = true ∧ (handleClear wStateC8).isAnalyzing = true :=
  ⟨rfl, rfl⟩

/-- C8 as amended: clear resets the InputSource (both the selected file
and the pasted text), AnalysisResult, AudioArtifact, and the upload
progress, releases the held audio handle, pauses active playback and
rewinds its position to the start; neither Mode (the podcast flag) nor
the in-flight SubmissionStatus flag is reset — both persist across
clears. -/
theorem C8_amended_clear_effect (s : AppState) :
    (handleClear s).selectedFile = none ∧
    (handleClear s).pastedText = "" ∧
    (handleClear s).results = [] ∧
    (handleClear s).uploadProgress = 0 ∧
    (handleClear s).audioUrl = none ∧
    (handleClear s).isPlaying = false ∧
    (handleClear s).audioRef
      = s.audioRef.map (fun a => { a with paused := true, currentTime := 0 }) ∧
    (handleClear s).podcastMode = s.podcastMode ∧
    (handleClear s).isAnalyzing = s.isAnalyzing :=
  ⟨rfl, rfl, rfl, rfl, rfl, rfl, rfl, rfl, rfl⟩

/-- C9: a dropped file becomes the selected InputSource exactly when its
declared content type is PDF, DOCX or plain text; any other declared type
is ignored and the selection is unchanged. `acceptedType` inspects only
the declared type, so the stated 10MB limit is not checked: the theorem
holds for a file of any size. -/
theorem C9_drop_type_filter (s : AppState) (f : JsFile) :
    (acceptedType f.type = true →
      (handleDrop s (some f)).selectedFile = some f) ∧
    (acceptedType f.type = false →
      (handleDrop s (some f)).selectedFile = s.selectedFile) := by
  constructor
  · intro h
    simp [handleDrop, simulateUpload, h]
  · intro h
    simp [handleDrop, simulateUpload, h]

/-- Witness for C9: a 20MB PDF (well over the stated 10MB limit) is
selected; a PNG of the same size is ignored. -/
theorem C9_drop_type_filter_witness :
    (handleDrop initialState
        (some { name := "big.pdf", size := 20971520, type := "application/pdf" })).selectedFile
      = some { name := "big.pdf", size := 20971520, type := "application/pdf" } ∧
    (handleDrop initialState
        (some { name := "big.png", size := 20971520, type := "image/png" })).selectedFile
      = initialState.selectedFile :=
  ⟨(C9_drop_type_filter initialState
      { name := "big.pdf", size := 20971520, type := "application/pdf" }).1 (by decide),
   (C9_drop_type_filter initialState
      { name := "big.png", size := 20971520, type := "image/png" }).2 (by decide)⟩

/-- C10: the click-to-upload change handler performs no content-type (or
size) check at all: any file carried by the change event unconditionally
becomes the selected InputSource and the simulated upload starts (progress
reset to 0). The file `f` is arbitrary — nothing constrains its declared
type or size. -/
theorem C10_fileChange_unchecked (s : AppState) (f : JsFile) :
    (handleFileChange s (some f)).selectedFile = some f ∧
    (handleFileChange s (some f)).uploadProgress = 0 :=
  ⟨rfl, rfl⟩
